import Mathlib

/-!
Shallow embedding of the Map-App Express server (`src/server.js`, with the
record schema from `src/models/Feature.js`).

The server exposes three data endpoints over a single `Feature` collection:

* `GET /api/features/count`  — total count with a 30 s process-wide cache and
  a retry loop (linear backoff `1000 * attempt` ms, `maxRetries = 3`);
* `GET /api/features/batch`  — offset pagination (`page`, `limit` query
  parameters, `skip = page * limit`) with a retry loop (exponential backoff
  `min(1000 * 2^(attempt-1), 5000)` ms, `maxRetries = 3`);
* `GET /api/features`        — legacy full-collection endpoint, no retries.

The external document store is the black box the spec describes: the embedding
passes its behaviour in as explicit parameters (per-attempt query outcomes,
the wall clock, the connection ready state), and every mutation the handlers
perform (cache writes, backoff sleeps) is made explicit in the returned
run records.
-/

namespace MapApp

/-- Geometry type tags allowed by the `Feature` schema. -/
inductive GeomType
  | Point
  | LineString
  | Polygon
deriving DecidableEq, Repr

/-- A geometry value: a type tag plus a numeric coordinate payload.  The
server never computes with coordinates — it only passes them through or
substitutes the default `[0, 0]` — so the nested numeric array is modelled
as a flat list of integers. -/
structure Geometry where
  gtype : GeomType
  coordinates : List Int
deriving DecidableEq, Repr

/-- Open-ended `properties` mapping of a feature, modelled as an association
list (the server passes it through opaquely). -/
abbrev Properties := List (String × String)

/-- A raw record in the store, following the schema of
`src/models/Feature.js`: `geometry`, `properties` and `file` may be absent
(`null`/`undefined` in the wire form), `_id` is the store-assigned key used
as the sole pagination cursor. -/
structure StoredFeature where
  _id : Nat
  geometry : Option Geometry
  properties : Option Properties
  file : Option String
deriving DecidableEq, Repr

/-- A GeoJSON feature as assembled by the handlers (`server.js` lines
173–179 and 229–236). -/
structure GeoJSONFeature where
  ftype : String
  geometry : Geometry
  properties : Properties
  file : String
  _id : Nat
deriving DecidableEq, Repr

/-- The default geometry substituted for a missing one:
`{ type: "Point", coordinates: [0, 0] }`. -/
def defaultGeometry : Geometry := ⟨GeomType.Point, [0, 0]⟩

/-- JS `x || d` on a string-valued field: `null`/`undefined` and the empty
string are falsy, every other string is itself. -/
def jsOrStr (v : Option String) (d : String) : String :=
  match v with
  | none => d
  | some s => if s = "" then d else s

/-- The per-record transform shared by the batch and legacy handlers:
`{ type: "Feature", geometry: f.geometry || default point, properties:
f.properties || {}, file: f.file || "default", _id: f._id }`. -/
def toGeoJSON (f : StoredFeature) : GeoJSONFeature :=
  { ftype := "Feature"
    geometry := f.geometry.getD defaultGeometry
    properties := f.properties.getD []
    file := jsOrStr f.file "default"
    _id := f._id }

/-- Numeric value of a decimal digit character. -/
def digitVal (c : Char) : Option Nat :=
  if c.isDigit then some (c.toNat - 48) else none

/-- Longest leading run of decimal digits. -/
def takeDigits : List Char → List Nat
  | [] => []
  | c :: cs =>
    match digitVal c with
    | some d => d :: takeDigits cs
    | none => []

/-- Value of a digit list read left to right. -/
def digitsToNat (ds : List Nat) : Nat :=
  ds.foldl (fun a d => a * 10 + d) 0

/-- JS `parseInt` as used on query parameters (radix-10 fragment: the hex
prefix branch of `parseInt` is not exercised by the handlers' callers and is
not modelled).  Skips leading whitespace, reads an optional sign and then the
longest leading run of decimal digits; `none` models `NaN` (also the result
on an absent parameter, since `parseInt(undefined)` is `NaN`). -/
def parseIntJS : Option String → Option Int
  | none => none
  | some s =>
    let cs := s.data.dropWhile (fun c => c = ' ' ∨ c = '\t' ∨ c = '\n' ∨ c = '\r')
    let signAndRest : Bool × List Char :=
      match cs with
      | '-' :: rest => (true, rest)
      | '+' :: rest => (false, rest)
      | _ => (false, cs)
    let ds := takeDigits signAndRest.2
    if ds.isEmpty then none
    else some (if signAndRest.1 then -(digitsToNat ds : Int) else (digitsToNat ds : Int))

/-- JS `parseInt(q) || d` on a number: `NaN` and `0` (including `-0`) are
falsy and give the default `d`. -/
def jsOrInt (v : Option Int) (d : Int) : Int :=
  match v with
  | none => d
  | some n => if n = 0 then d else n

/-- Insert a record into a list sorted ascending by `_id`. -/
def insertById (f : StoredFeature) : List StoredFeature → List StoredFeature
  | [] => [f]
  | g :: gs => if f._id ≤ g._id then f :: g :: gs else g :: insertById f gs

/-- The store's `sort({ _id: 1 })`: the records sorted ascending by `_id`
(insertion sort; the store is the black box that provides the ordering). -/
def sortById : List StoredFeature → List StoredFeature
  | [] => []
  | f :: fs => insertById f (sortById fs)

/-- The store query of the batch handler:
`find({}).sort({_id: 1}).skip(skip).limit(limit)`.  MongoDB rejects negative
`skip`; no claim concerns negative values, so the embedding takes `Nat`
arguments and the handler clamps. -/
def batchQuery (store : List StoredFeature) (skip limit : Nat) : List StoredFeature :=
  ((sortById store).drop skip).take limit

/-! ### Batch endpoint (`GET /api/features/batch`, `server.js` lines 144–211) -/

/-- The HTTP response of the batch handler: either the success JSON body
`{ features, page, limit, hasMore, count }`, or an error body with its HTTP
status (`503 { error }`, `500 { error, message, attempts }`). -/
inductive BatchResult
  | ok (features : List GeoJSONFeature) (page limit : Int) (hasMore : Bool) (count : Nat)
  | err (status : Nat) (error : String) (message : String) (attempts : Option Nat)
deriving DecidableEq, Repr

/-- HTTP status of a batch response (success responses are 200). -/
def BatchResult.status : BatchResult → Nat
  | .ok _ _ _ _ _ => 200
  | .err s _ _ _ => s

/-- A full run of the batch handler: the response sent, the backoff sleeps
performed between attempts (in ms, in order), and how many store queries were
issued. -/
structure BatchRun where
  result : BatchResult
  waits : List Nat
  queries : Nat
deriving DecidableEq, Repr

/-- The exponential backoff of the batch handler after the `attempt`-th
failure: `Math.min(1000 * Math.pow(2, attempt - 1), 5000)` ms. -/
def batchBackoff (attempt : Nat) : Nat :=
  min (1000 * 2 ^ (attempt - 1)) 5000

/-- The `maxRetries` constant of both retrying handlers. -/
def maxRetries : Nat := 3

/-- One state of the batch handler's `while (attempt < maxRetries)` loop.
`conn` is `mongoose.connection.readyState` (1 = connected); `failAt k` is the
outcome of the store query on the attempt with counter value `k` (`none` =
the query resolves, `some m` = it rejects with message `m`).  `fuel` bounds
the remaining loop iterations (the handler is entered with `fuel = maxRetries`
and `attempt = 0`, which is enough: the loop always returns before exhausting
it).  `acc` accumulates backoff sleeps already performed, `q` store queries
already issued. -/
def batchLoop (store : List StoredFeature) (conn : Int) (pageQ limitQ : Option String)
    (failAt : Nat → Option String) :
    Nat → Nat → List Nat → Nat → BatchRun
  | _, 0, acc, q => ⟨.err 0 "loop exhausted" "" none, acc.reverse, q⟩
  | attempt, fuel + 1, acc, q =>
    if conn ≠ 1 then
      ⟨.err 503 "Database not connected" "" none, acc.reverse, q⟩
    else
      let page := jsOrInt (parseIntJS pageQ) 0
      let limit := jsOrInt (parseIntJS limitQ) 500
      let skip := page * limit
      match failAt attempt with
      | some m =>
        if attempt + 1 ≥ maxRetries then
          ⟨.err 500 "Failed to fetch batch after retries" m (some maxRetries),
            acc.reverse, q + 1⟩
        else
          batchLoop store conn pageQ limitQ failAt (attempt + 1) fuel
            (batchBackoff (attempt + 1) :: acc) (q + 1)
      | none =>
        let records := batchQuery store skip.toNat limit.toNat
        let geojsonFeatures := records.map toGeoJSON
        let hasMore := decide ((records.length : Int) = limit)
        ⟨.ok geojsonFeatures page limit hasMore geojsonFeatures.length,
          acc.reverse, q + 1⟩

/-- A request to `GET /api/features/batch`: enter the retry loop with
`attempt = 0`. -/
def batchEndpoint (store : List StoredFeature) (conn : Int) (pageQ limitQ : Option String)
    (failAt : Nat → Option String) : BatchRun :=
  batchLoop store conn pageQ limitQ failAt 0 maxRetries [] 0

/-! ### Count endpoint (`GET /api/features/count`, `server.js` lines 88–141) -/

/-- The process-wide count cache: `cachedCount` (initially `null`) and
`countCacheTime` (ms timestamp, initially 0). -/
structure CountState where
  cachedCount : Option Int
  countCacheTime : Int
deriving DecidableEq, Repr

/-- The cache TTL `COUNT_CACHE_TTL` (ms). -/
def COUNT_CACHE_TTL : Int := 30000

/-- The HTTP response of the count handler: the success body
`{ count, cached }`, or an error body with its status. -/
inductive CountResult
  | ok (count : Int) (cached : Bool)
  | err (status : Nat) (error : String) (message : String)
deriving DecidableEq, Repr

/-- HTTP status of a count response. -/
def CountResult.status : CountResult → Nat
  | .ok _ _ => 200
  | .err s _ _ => s

/-- A full run of the count handler: the response, the cache state after the
request, the backoff sleeps performed (ms), and the number of store count
queries issued (`estimatedDocumentCount` and `countDocuments` each count as
one). -/
structure CountRun where
  result : CountResult
  state : CountState
  waits : List Nat
  queries : Nat
deriving DecidableEq, Repr

/-- The cache check of `server.js` line 105:
`cachedCount !== null && (now - countCacheTime) < COUNT_CACHE_TTL`.
Returns the cached value when it is fresh, `none` otherwise. -/
def cacheFresh (st : CountState) (now : Int) : Option Int :=
  match st.cachedCount with
  | some c => if now - st.countCacheTime < COUNT_CACHE_TTL then some c else none
  | none => none

/-- One state of the count handler's retry loop.  `nowAt k` is `Date.now()`
as read on the attempt with counter value `k`; `estAt k` / `exactAt k` are
the outcomes of `estimatedDocumentCount` and of the fallback
`countDocuments` on that attempt.  On a fresh computation the handler tries
the estimated count, falls back to the exact count on its failure, and
updates the cache on success; on a failed attempt it sleeps
`1000 * attempt` ms (after incrementing `attempt`) and retries. -/
def countLoop (conn : Int) (nowAt : Nat → Int)
    (estAt exactAt : Nat → Except String Int) (st : CountState) :
    Nat → Nat → List Nat → Nat → CountRun
  | _, 0, acc, q => ⟨.err 0 "loop exhausted" "", st, acc.reverse, q⟩
  | attempt, fuel + 1, acc, q =>
    if conn ≠ 1 then
      ⟨.err 503 "Database not connected" "", st, acc.reverse, q⟩
    else
      let now := nowAt attempt
      match cacheFresh st now with
      | some c => ⟨.ok c true, st, acc.reverse, q⟩
      | none =>
        match estAt attempt with
        | .ok c => ⟨.ok c false, ⟨some c, now⟩, acc.reverse, q + 1⟩
        | .error _ =>
          match exactAt attempt with
          | .ok c => ⟨.ok c false, ⟨some c, now⟩, acc.reverse, q + 2⟩
          | .error m =>
            if attempt + 1 ≥ maxRetries then
              ⟨.err 500 "Failed to count features" m, st, acc.reverse, q + 2⟩
            else
              countLoop conn nowAt estAt exactAt st (attempt + 1) fuel
                (1000 * (attempt + 1) :: acc) (q + 2)

/-- A request to `GET /api/features/count`: enter the retry loop with
`attempt = 0` from cache state `st`. -/
def countEndpoint (conn : Int) (nowAt : Nat → Int)
    (estAt exactAt : Nat → Except String Int) (st : CountState) : CountRun :=
  countLoop conn nowAt estAt exactAt st 0 maxRetries [] 0

/-! ### Legacy endpoint (`GET /api/features`, `server.js` lines 214–248) -/

/-- The HTTP response of the legacy full-collection handler: the success body
`{ type: "FeatureCollection", features }`, or an error body with its
status. -/
inductive LegacyResult
  | ok (ctype : String) (features : List GeoJSONFeature)
  | err (status : Nat) (error : String) (message : String)
deriving DecidableEq, Repr

/-- HTTP status of a legacy response. -/
def LegacyResult.status : LegacyResult → Nat
  | .ok _ _ => 200
  | .err s _ _ => s

/-- A request to `GET /api/features`.  `outcome` is the result of the cursor
iteration over `find({})` (no sort, so the store's natural order): `none` =
it streams all records, `some m` = it rejects with message `m`.  There is no
retry loop: one outcome decides the response. -/
def legacyEndpoint (store : List StoredFeature) (conn : Int)
    (outcome : Option String) : LegacyResult :=
  if conn ≠ 1 then
    .err 503 "Database not connected" ""
  else
    match outcome with
    | some m => .err 500 "Failed to fetch features" m
    | none => .ok "FeatureCollection" (store.map toGeoJSON)

/-! ### Correctness of the embedded sort -/

theorem insertById_perm (f : StoredFeature) (l : List StoredFeature) :
    (insertById f l).Perm (f :: l) := by
  induction l with
  | nil => simp [insertById]
  | cons g gs ih =>
    simp only [insertById]
    split
    · exact List.Perm.refl _
    · exact (ih.cons g).trans (List.Perm.swap f g gs)

theorem sortById_perm (l : List StoredFeature) : (sortById l).Perm l := by
  induction l with
  | nil => simp [sortById]
  | cons f fs ih =>
    exact (insertById_perm f (sortById fs)).trans (ih.cons f)

theorem insertById_sorted (f : StoredFeature) (l : List StoredFeature)
    (h : l.Pairwise (fun a b => a._id ≤ b._id)) :
    (insertById f l).Pairwise (fun a b => a._id ≤ b._id) := by
  induction l with
  | nil => simp [insertById]
  | cons g gs ih =>
    rw [List.pairwise_cons] at h
    obtain ⟨hg, hgs⟩ := h
    simp only [insertById]
    split
    · case isTrue hle =>
      refine List.pairwise_cons.mpr ⟨?_, List.pairwise_cons.mpr ⟨hg, hgs⟩⟩
      intro b hb
      rcases List.mem_cons.mp hb with hb | hb
      · exact hb ▸ hle
      · exact le_trans hle (hg b hb)
    · case isFalse hgt =>
      refine List.pairwise_cons.mpr ⟨?_, ih hgs⟩
      intro b hb
      have hb' : b ∈ f :: gs := (insertById_perm f gs).mem_iff.mp hb
      rcases List.mem_cons.mp hb' with hb' | hb'
      · exact hb' ▸ le_of_not_le hgt
      · exact hg b hb'

theorem sortById_sorted (l : List StoredFeature) :
    (sortById l).Pairwise (fun a b => a._id ≤ b._id) := by
  induction l with
  | nil => simp [sortById]
  | cons f fs ih => exact insertById_sorted f (sortById fs) ih

/-! ### Claims -/

/-- Claim C1: for every batch request (here: connected store, first query
attempt resolving, non-negative page, positive limit), the handler defaults
`page` to 0 and `limit` to 500 when the query parameters are absent or
malformed, computes `skip = page * limit`, and returns the store's records
sorted ascending by `_id` after skipping `skip` and taking at most `limit`
of them, each record mapped to a GeoJSON feature in which a missing geometry
becomes the default `Point [0, 0]`, missing properties become the empty
object, and a missing file tag becomes `"default"`; on an empty store the
response is `features = []`, `hasMore = false`, `count = 0`. -/
theorem batch_endpoint_pagination_and_defaults
    (store : List StoredFeature) (pageQ limitQ : Option String)
    (failAt : Nat → Option String) (page limit : Int)
    (hpage : page = jsOrInt (parseIntJS pageQ) 0)
    (hlimit : limit = jsOrInt (parseIntJS limitQ) 500)
    (hp : 0 ≤ page) (hl : 0 < limit)
    (hok : failAt 0 = none) :
    (parseIntJS pageQ = none → page = 0) ∧
    (parseIntJS limitQ = none → limit = 500) ∧
    (∃ sorted : List StoredFeature,
      sorted.Perm store ∧
      sorted.Pairwise (fun a b => a._id ≤ b._id) ∧
      (batchEndpoint store 1 pageQ limitQ failAt).result =
        BatchResult.ok (((sorted.drop (page * limit).toNat).take limit.toNat).map toGeoJSON)
          page limit
          (decide ((((sorted.drop (page * limit).toNat).take limit.toNat).length : Int) = limit))
          ((sorted.drop (page * limit).toNat).take limit.toNat).length) ∧
    (∀ f : StoredFeature,
      (toGeoJSON f).ftype = "Feature" ∧ (toGeoJSON f)._id = f._id ∧
      (f.geometry = none → (toGeoJSON f).geometry = ⟨GeomType.Point, [0, 0]⟩) ∧
      (f.properties = none → (toGeoJSON f).properties = []) ∧
      (f.file = none → (toGeoJSON f).file = "default")) ∧
    (store = [] →
      (batchEndpoint store 1 pageQ limitQ failAt).result =
        BatchResult.ok [] page limit false 0) := by
  refine ⟨?_, ?_, ⟨sortById store, sortById_perm store, sortById_sorted store, ?_⟩, ?_, ?_⟩
  · intro h; simp [hpage, h, jsOrInt]
  · intro h; simp [hlimit, h, jsOrInt]
  · subst hpage hlimit
    simp [batchEndpoint, batchLoop, maxRetries, hok, batchQuery]
  · intro f
    refine ⟨rfl, rfl, ?_, ?_, ?_⟩ <;> intro h <;>
      simp [toGeoJSON, h, defaultGeometry, jsOrStr]
  · intro h
    subst h hpage hlimit
    have hne : ¬ ((0 : Int) = jsOrInt (parseIntJS limitQ) 500) := by
      intro hc; rw [← hc] at hl; exact lt_irrefl _ hl
    simp [batchEndpoint, batchLoop, maxRetries, hok, batchQuery, sortById, hne]

/-- Concrete instance of `batch_endpoint_pagination_and_defaults`: the empty
store with absent query parameters yields the empty page with the default
`page = 0`, `limit = 500`. -/
theorem batch_endpoint_pagination_and_defaults_witness :
    (batchEndpoint [] 1 none none (fun _ => none)).result =
      BatchResult.ok [] 0 500 false 0 := by
  have h := batch_endpoint_pagination_and_defaults [] none none (fun _ => none) 0 500
    rfl rfl (by decide) (by decide) rfl
  exact h.2.2.2.2 rfl

/-- Every success response of the batch retry loop, from any loop state,
has `hasMore = true` exactly when the page is full and reports `count` equal
to the number of features returned. -/
theorem batchLoop_ok_inv (store : List StoredFeature) (conn : Int)
    (pageQ limitQ : Option String) (failAt : Nat → Option String) :
    ∀ fuel attempt acc q F p l hm c,
      (batchLoop store conn pageQ limitQ failAt attempt fuel acc q).result =
        BatchResult.ok F p l hm c →
      (hm = true ↔ (F.length : Int) = l) ∧ c = F.length := by
  intro fuel
  induction fuel with
  | zero =>
    intro attempt acc q F p l hm c h
    simp [batchLoop] at h
  | succ fuel ih =>
    intro attempt acc q F p l hm c h
    by_cases hc : conn = 1
    · subst hc
      rcases hf : failAt attempt with _ | m
      · simp [batchLoop, hf] at h
        obtain ⟨hF, hp, hl, hhm, hcnt⟩ := h
        subst hF hl hhm hcnt
        simp
      · simp only [batchLoop, hf] at h
        rw [if_neg (by simp)] at h
        split at h
        · simp at h
        · exact ih _ _ _ _ _ _ _ _ h
    · simp [batchLoop, hc] at h

/-- Claim C2: for every batch request with valid `page ≥ 0` and `limit > 0`
that succeeds, `hasMore` is true iff the number of returned records equals
`limit`, and the `count` field equals the number of features in the
response. -/
theorem batch_hasMore_iff_full_page
    (store : List StoredFeature) (conn : Int) (pageQ limitQ : Option String)
    (failAt : Nat → Option String) (F : List GeoJSONFeature)
    (p l : Int) (hm : Bool) (c : Nat)
    (hp : 0 ≤ p) (hl : 0 < l)
    (h : (batchEndpoint store conn pageQ limitQ failAt).result =
      BatchResult.ok F p l hm c) :
    (hm = true ↔ (F.length : Int) = l) ∧ c = F.length :=
  batchLoop_ok_inv store conn pageQ limitQ failAt maxRetries 0 [] 0 F p l hm c h

/-- Concrete instance of `batch_hasMore_iff_full_page`: a singleton store
with `limit = 1` produces a full page, so `hasMore = true` and `count = 1`. -/
theorem batch_hasMore_iff_full_page_witness :
    (true = true ↔ (([toGeoJSON ⟨5, none, none, none⟩].length : Int) = 1)) ∧
      1 = [toGeoJSON ⟨5, none, none, none⟩].length :=
  batch_hasMore_iff_full_page [⟨5, none, none, none⟩] 1 none (some "1")
    (fun _ => none) [toGeoJSON ⟨5, none, none, none⟩] 0 1 true 1
    (by decide) (by decide) (by decide)

/-- Claim C3: a count request hitting a fresh cache entry (stored less
than `COUNT_CACHE_TTL` ms earlier) returns the cached value with
`cached: true`, performs no store query and leaves the state unchanged;
a count request finding no fresh entry (nothing stored, or the TTL elapsed)
computes freshly and returns `cached: false`.  Concretely: a first request
from a stale state stores `(count, now1)`, and a second request arriving
within the TTL returns the same count, tagged cached, with zero store
queries. -/
theorem count_cache_ttl_behaviour
    (st : CountState) (c now1 now2 : Int)
    (estA exactA estB exactB : Nat → Except String Int)
    (hstale : st.cachedCount = none ∨ COUNT_CACHE_TTL ≤ now1 - st.countCacheTime)
    (hest : estA 0 = .ok c)
    (h0 : 0 ≤ now2 - now1) (h30 : now2 - now1 < COUNT_CACHE_TTL) :
    (countEndpoint 1 (fun _ => now1) estA exactA st).result = CountResult.ok c false ∧
    (countEndpoint 1 (fun _ => now1) estA exactA st).state = ⟨some c, now1⟩ ∧
    (countEndpoint 1 (fun _ => now1) estA exactA st).queries = 1 ∧
    (countEndpoint 1 (fun _ => now2) estB exactB ⟨some c, now1⟩).result =
      CountResult.ok c true ∧
    (countEndpoint 1 (fun _ => now2) estB exactB ⟨some c, now1⟩).state = ⟨some c, now1⟩ ∧
    (countEndpoint 1 (fun _ => now2) estB exactB ⟨some c, now1⟩).queries = 0 := by
  have hmiss : cacheFresh st now1 = none := by
    rcases hstale with h | h
    · simp [cacheFresh, h]
    · rcases hsc : st.cachedCount with _ | c0
      · simp [cacheFresh, hsc]
      · simp only [cacheFresh, hsc]
        rw [if_neg (by omega)]
  have hhit : cacheFresh ⟨some c, now1⟩ now2 = some c := by
    simp only [cacheFresh]
    rw [if_pos (by omega)]
  have h1 : countEndpoint 1 (fun _ => now1) estA exactA st =
      ⟨CountResult.ok c false, ⟨some c, now1⟩, [], 1⟩ := by
    simp [countEndpoint, countLoop, maxRetries, hmiss, hest]
  have h2 : countEndpoint 1 (fun _ => now2) estB exactB ⟨some c, now1⟩ =
      ⟨CountResult.ok c true, ⟨some c, now1⟩, [], 0⟩ := by
    simp [countEndpoint, countLoop, maxRetries, hhit]
  rw [h1, h2]
  exact ⟨rfl, rfl, rfl, rfl, rfl, rfl⟩

/-- Concrete instance of `count_cache_ttl_behaviour`: a first request at
time 0 on an empty cache computes 42 freshly; a second request at time
29999 returns 42 from the cache with no store query. -/
theorem count_cache_ttl_behaviour_witness :
    (countEndpoint 1 (fun _ => 0) (fun _ => Except.ok 42) (fun _ => Except.ok 42)
      ⟨none, 0⟩).result = CountResult.ok 42 false ∧
    (countEndpoint 1 (fun _ => 29999) (fun _ => Except.ok 41) (fun _ => Except.ok 41)
      ⟨some 42, 0⟩).result = CountResult.ok 42 true ∧
    (countEndpoint 1 (fun _ => 29999) (fun _ => Except.ok 41) (fun _ => Except.ok 41)
      ⟨some 42, 0⟩).queries = 0 := by
  have h := count_cache_ttl_behaviour ⟨none, 0⟩ 42 0 29999
    (fun _ => Except.ok 42) (fun _ => Except.ok 42)
    (fun _ => Except.ok 41) (fun _ => Except.ok 41)
    (Or.inl rfl) rfl (by decide) (by decide)
  exact ⟨h.1, h.2.2.2.1, h.2.2.2.2.2⟩

/-- Claim C4: while the store connection is not in the ready state, both the
count endpoint and the batch endpoint return 503 with an error body at once:
no store query is issued, no backoff sleep happens, and (for count) the
cache state is untouched. -/
theorem endpoints_not_ready_return_503
    (conn : Int) (hconn : conn ≠ 1)
    (store : List StoredFeature) (pageQ limitQ : Option String)
    (failAt : Nat → Option String) (nowAt : Nat → Int)
    (estAt exactAt : Nat → Except String Int) (st : CountState) :
    batchEndpoint store conn pageQ limitQ failAt =
      ⟨BatchResult.err 503 "Database not connected" "" none, [], 0⟩ ∧
    countEndpoint conn nowAt estAt exactAt st =
      ⟨CountResult.err 503 "Database not connected" "", st, [], 0⟩ := by
  constructor
  · simp [batchEndpoint, batchLoop, maxRetries, hconn]
  · simp [countEndpoint, countLoop, maxRetries, hconn]

/-- Concrete instance of `endpoints_not_ready_return_503` at ready state 0. -/
theorem endpoints_not_ready_return_503_witness :
    batchEndpoint [] 0 none none (fun _ => none) =
      ⟨BatchResult.err 503 "Database not connected" "" none, [], 0⟩ ∧
    countEndpoint 0 (fun _ => 0) (fun _ => Except.ok 1) (fun _ => Except.ok 1) ⟨none, 0⟩ =
      ⟨CountResult.err 503 "Database not connected" "", ⟨none, 0⟩, [], 0⟩ :=
  endpoints_not_ready_return_503 0 (by decide) [] none none (fun _ => none)
    (fun _ => 0) (fun _ => Except.ok 1) (fun _ => Except.ok 1) ⟨none, 0⟩

/-- Claim C5: the batch endpoint makes at most `maxRetries = 3` attempts.
When all three store queries reject, the sleeps between consecutive attempts
follow `min(1000 * 2^(attempt-1), 5000)` ms for the failed attempts 1 and 2,
and the response is a 500 carrying the last underlying error message and the
attempt count 3.  When the first two attempts reject and the third resolves,
the response is the normal success with the correct page data, after the
same two backoff sleeps. -/
theorem batch_retry_exponential_backoff
    (store : List StoredFeature) (pageQ limitQ : Option String)
    (m0 m1 m2 : String) (failAll failThird : Nat → Option String)
    (ha0 : failAll 0 = some m0) (ha1 : failAll 1 = some m1) (ha2 : failAll 2 = some m2)
    (hb0 : failThird 0 = some m0) (hb1 : failThird 1 = some m1) (hb2 : failThird 2 = none)
    (page limit : Int)
    (hpage : page = jsOrInt (parseIntJS pageQ) 0)
    (hlimit : limit = jsOrInt (parseIntJS limitQ) 500)
    (hp : 0 ≤ page) (hl : 0 < limit) :
    batchEndpoint store 1 pageQ limitQ failAll =
      ⟨BatchResult.err 500 "Failed to fetch batch after retries" m2 (some 3),
        [min (1000 * 2 ^ (1 - 1)) 5000, min (1000 * 2 ^ (2 - 1)) 5000], 3⟩ ∧
    batchEndpoint store 1 pageQ limitQ failThird =
      ⟨BatchResult.ok ((batchQuery store (page * limit).toNat limit.toNat).map toGeoJSON)
          page limit
          (decide (((batchQuery store (page * limit).toNat limit.toNat).length : Int) = limit))
          ((batchQuery store (page * limit).toNat limit.toNat).map toGeoJSON).length,
        [min (1000 * 2 ^ (1 - 1)) 5000, min (1000 * 2 ^ (2 - 1)) 5000], 3⟩ := by
  subst hpage hlimit
  constructor
  · simp [batchEndpoint, batchLoop, maxRetries, batchBackoff, ha0, ha1, ha2]
  · simp [batchEndpoint, batchLoop, maxRetries, batchBackoff, hb0, hb1, hb2]

/-- Concrete instance of `batch_retry_exponential_backoff`: with all three
attempts rejecting, a 500 after sleeps of 1000 ms and 2000 ms; with only the
third resolving, the correct (empty-store) success after the same sleeps. -/
theorem batch_retry_exponential_backoff_witness :
    batchEndpoint [] 1 none none (fun _ => some "boom") =
      ⟨BatchResult.err 500 "Failed to fetch batch after retries" "boom" (some 3),
        [1000, 2000], 3⟩ ∧
    batchEndpoint [] 1 none none (fun k => if k < 2 then some "boom" else none) =
      ⟨BatchResult.ok [] 0 500 false 0, [1000, 2000], 3⟩ := by
  have h := batch_retry_exponential_backoff [] none none "boom" "boom" "boom"
    (fun _ => some "boom") (fun k => if k < 2 then some "boom" else none)
    rfl rfl rfl rfl rfl rfl 0 500 rfl rfl (by decide) (by decide)
  exact ⟨h.1, h.2⟩

/-- Claim C6: when on every attempt both the estimated and the exact count
reject, the count endpoint makes `maxRetries = 3` attempts, sleeping
`1000 * attempt` ms after the failed attempts 1 and 2, and responds 500 with
the last underlying error message in the body. -/
theorem count_retry_linear_backoff
    (st : CountState) (nowAt : Nat → Int)
    (estAt exactAt : Nat → Except String Int)
    (e0 e1 e2 m0 m1 m2 : String)
    (hnone : st.cachedCount = none)
    (he0 : estAt 0 = .error e0) (he1 : estAt 1 = .error e1) (he2 : estAt 2 = .error e2)
    (hx0 : exactAt 0 = .error m0) (hx1 : exactAt 1 = .error m1) (hx2 : exactAt 2 = .error m2) :
    countEndpoint 1 nowAt estAt exactAt st =
      ⟨CountResult.err 500 "Failed to count features" m2, st,
        [1000 * 1, 1000 * 2], 6⟩ := by
  have hmiss : ∀ now, cacheFresh st now = none := fun now => by simp [cacheFresh, hnone]
  simp [countEndpoint, countLoop, maxRetries, hmiss, he0, he1, he2, hx0, hx1, hx2]

/-- Concrete instance of `count_retry_linear_backoff`: three failed attempts
give a 500 with the last message after sleeps of 1000 ms and 2000 ms. -/
theorem count_retry_linear_backoff_witness :
    countEndpoint 1 (fun _ => 0) (fun _ => Except.error "est down")
        (fun _ => Except.error "exact down") ⟨none, 0⟩ =
      ⟨CountResult.err 500 "Failed to count features" "exact down", ⟨none, 0⟩,
        [1000 * 1, 1000 * 2], 6⟩ :=
  count_retry_linear_backoff ⟨none, 0⟩ (fun _ => 0)
    (fun _ => Except.error "est down") (fun _ => Except.error "exact down")
    "est down" "est down" "est down" "exact down" "exact down" "exact down"
    rfl rfl rfl rfl rfl rfl rfl

/-- Every response of the batch retry loop, from any reachable loop state,
has status 200, 503 or 500: there is no other exit from the handler. -/
theorem batchLoop_status_cases (store : List StoredFeature) (conn : Int)
    (pageQ limitQ : Option String) (failAt : Nat → Option String) :
    ∀ fuel attempt acc q, attempt + fuel = 3 → attempt < 3 →
      (batchLoop store conn pageQ limitQ failAt attempt fuel acc q).result.status = 200 ∨
      (batchLoop store conn pageQ limitQ failAt attempt fuel acc q).result.status = 503 ∨
      (batchLoop store conn pageQ limitQ failAt attempt fuel acc q).result.status = 500 := by
  intro fuel
  induction fuel with
  | zero => intro attempt acc q hsum hlt; omega
  | succ fuel ih =>
    intro attempt acc q hsum hlt
    by_cases hc : conn = 1
    · subst hc
      rcases hf : failAt attempt with _ | m
      · left
        simp [batchLoop, hf, BatchResult.status]
      · simp only [batchLoop, hf]
        rw [if_neg (by simp)]
        by_cases hge : attempt + 1 ≥ maxRetries
        · right; right
          rw [if_pos hge]
          rfl
        · rw [if_neg hge]
          have hm : maxRetries = 3 := rfl
          rw [hm] at hge
          exact ih (attempt + 1) _ _ (by omega) (by omega)
    · right; left
      simp [batchLoop, hc, BatchResult.status]

/-- Claim C7: malformed `page` and `limit` query parameters never produce a
validation error — the handler's only statuses are 200, 503 and 500 — and
when the request reaches a successful query they are silently coerced to the
defaults `page = 0`, `limit = 500`. -/
theorem batch_malformed_params_defaulted
    (store : List StoredFeature) (conn : Int) (pageQ limitQ : Option String)
    (failAt : Nat → Option String)
    (hmp : parseIntJS pageQ = none) (hml : parseIntJS limitQ = none) :
    ((batchEndpoint store conn pageQ limitQ failAt).result.status = 200 ∨
      (batchEndpoint store conn pageQ limitQ failAt).result.status = 503 ∨
      (batchEndpoint store conn pageQ limitQ failAt).result.status = 500) ∧
    (failAt 0 = none →
      (batchEndpoint store 1 pageQ limitQ failAt).result =
        BatchResult.ok (((sortById store).take 500).map toGeoJSON) 0 500
          (decide ((((sortById store).take 500).length : Int) = 500))
          ((sortById store).take 500).length) := by
  constructor
  · exact batchLoop_status_cases store conn pageQ limitQ failAt 3 0 [] 0 rfl (by decide)
  · intro hok
    simp [batchEndpoint, batchLoop, maxRetries, hok, batchQuery, hmp, hml, jsOrInt]

/-- Concrete instance of `batch_malformed_params_defaulted`: with
`page=abc&limit=xyz`, a singleton store and a first attempt that resolves,
the response uses `page = 0` and `limit = 500` and is a 200. -/
theorem batch_malformed_params_defaulted_witness :
    ((batchEndpoint [⟨7, none, none, none⟩] 1 (some "abc") (some "xyz")
        (fun _ => none)).result.status = 200 ∨
      (batchEndpoint [⟨7, none, none, none⟩] 1 (some "abc") (some "xyz")
        (fun _ => none)).result.status = 503 ∨
      (batchEndpoint [⟨7, none, none, none⟩] 1 (some "abc") (some "xyz")
        (fun _ => none)).result.status = 500) ∧
    (batchEndpoint [⟨7, none, none, none⟩] 1 (some "abc") (some "xyz")
        (fun _ => none)).result =
      BatchResult.ok [toGeoJSON ⟨7, none, none, none⟩] 0 500 false 1 := by
  have h := batch_malformed_params_defaulted [⟨7, none, none, none⟩] 1
    (some "abc") (some "xyz") (fun _ => none) (by decide) (by decide)
  exact ⟨h.1, by rw [h.2 rfl]; decide⟩

/-- Claim C8 fails on the code: with the store connection not ready, the
legacy full-collection endpoint returns 503, not the claimed 500. -/
theorem legacy_not_ready_is_503_not_500 :
    (legacyEndpoint [] 0 none).status = 503 ∧ (legacyEndpoint [] 0 none).status ≠ 500 := by
  decide

/-- Claim C8 (amended): the legacy full-collection endpoint performs no
retries; the store connection not being ready yields 503, every other
failure yields 500 with the error message; on success it returns a single
object with type `"FeatureCollection"` containing all features. -/
theorem legacy_endpoint_behaviour
    (store : List StoredFeature) (conn : Int) (outcome : Option String) :
    (conn ≠ 1 →
      legacyEndpoint store conn outcome = LegacyResult.err 503 "Database not connected" "") ∧
    (conn = 1 → ∀ m, outcome = some m →
      legacyEndpoint store conn outcome = LegacyResult.err 500 "Failed to fetch features" m) ∧
    (conn = 1 → outcome = none →
      legacyEndpoint store conn outcome =
        LegacyResult.ok "FeatureCollection" (store.map toGeoJSON)) := by
  refine ⟨fun h => ?_, fun h m hm => ?_, fun h hn => ?_⟩
  · simp [legacyEndpoint, h]
  · subst h; simp [legacyEndpoint, hm]
  · subst h; simp [legacyEndpoint, hn]

/-- Concrete instances of `legacy_endpoint_behaviour`: not-ready gives 503,
a failing cursor gives 500, success gives the full collection. -/
theorem legacy_endpoint_behaviour_witness :
    legacyEndpoint [] 0 none = LegacyResult.err 503 "Database not connected" "" ∧
    legacyEndpoint [] 1 (some "cursor died") =
      LegacyResult.err 500 "Failed to fetch features" "cursor died" ∧
    legacyEndpoint [⟨9, none, none, none⟩] 1 none =
      LegacyResult.ok "FeatureCollection" [toGeoJSON ⟨9, none, none, none⟩] :=
  ⟨(legacy_endpoint_behaviour [] 0 none).1 (by decide),
   (legacy_endpoint_behaviour [] 1 (some "cursor died")).2.1 rfl "cursor died" rfl,
   (legacy_endpoint_behaviour [⟨9, none, none, none⟩] 1 none).2.2 rfl rfl⟩

/-- Every error response of the count retry loop leaves the cache state it
was entered with untouched. -/
theorem countLoop_err_state (conn : Int) (nowAt : Nat → Int)
    (estAt exactAt : Nat → Except String Int) (st : CountState) :
    ∀ fuel attempt acc q s e m,
      (countLoop conn nowAt estAt exactAt st attempt fuel acc q).result =
        CountResult.err s e m →
      (countLoop conn nowAt estAt exactAt st attempt fuel acc q).state = st := by
  intro fuel
  induction fuel with
  | zero => intro attempt acc q s e m _; simp [countLoop]
  | succ fuel ih =>
    intro attempt acc q s e m h
    by_cases hc : conn = 1
    · subst hc
      rcases hcf : cacheFresh st (nowAt attempt) with _ | c
      · rcases he : estAt attempt with ee | ce
        · rcases hx : exactAt attempt with ex | cx
          · by_cases hge : attempt + 1 ≥ maxRetries
            · simp [countLoop, hcf, he, hx, hge]
            · simp only [countLoop, hcf, he, hx] at h ⊢
              rw [if_neg (by simp), if_neg hge] at h ⊢
              exact ih (attempt + 1) _ _ s e m h
          · simp [countLoop, hcf, he, hx] at h
        · simp [countLoop, hcf, he] at h
      · simp [countLoop, hcf] at h
    · simp [countLoop, hc]

/-- Claim C9: the count cache is mutated only by a successful fresh count;
every error outcome of a count request — store not connected, or retries
exhausted with a 500 — leaves both cache variables unchanged. -/
theorem count_cache_unchanged_on_error
    (conn : Int) (nowAt : Nat → Int) (estAt exactAt : Nat → Except String Int)
    (st : CountState) (s : Nat) (e m : String)
    (h : (countEndpoint conn nowAt estAt exactAt st).result = CountResult.err s e m) :
    (countEndpoint conn nowAt estAt exactAt st).state = st :=
  countLoop_err_state conn nowAt estAt exactAt st maxRetries 0 [] 0 s e m h

/-- Concrete instance of `count_cache_unchanged_on_error`: a request that
exhausts its retries leaves the pre-existing cache entry in place. -/
theorem count_cache_unchanged_on_error_witness :
    (countEndpoint 1 (fun _ => 50000) (fun _ => Except.error "e")
      (fun _ => Except.error "x") ⟨some 11, 0⟩).state = ⟨some 11, 0⟩ :=
  count_cache_unchanged_on_error 1 (fun _ => 50000) (fun _ => Except.error "e")
    (fun _ => Except.error "x") ⟨some 11, 0⟩ 500 "Failed to count features" "x" (by decide)

/-- Claim C10: a batch request with `limit=0` is treated as if the parameter
were absent — `parseInt` yields the falsy 0, so the default 500 is
substituted: the response's `limit` field is 500 and up to 500 records are
returned (a nonempty store never yields an empty page); `page=0` coerces the
same way, coinciding with the default 0. -/
theorem batch_limit_zero_defaults_to_500
    (store : List StoredFeature) (failAt : Nat → Option String)
    (hok : failAt 0 = none) :
    jsOrInt (parseIntJS (some "0")) 500 = 500 ∧
    jsOrInt (parseIntJS (some "0")) 0 = 0 ∧
    (batchEndpoint store 1 (some "0") (some "0") failAt).result =
      BatchResult.ok (((sortById store).take 500).map toGeoJSON) 0 500
        (decide ((((sortById store).take 500).length : Int) = 500))
        ((sortById store).take 500).length ∧
    ((sortById store).take 500).length ≤ 500 ∧
    (store ≠ [] → ((sortById store).take 500).map toGeoJSON ≠ []) := by
  have hp0 : jsOrInt (parseIntJS (some "0")) 0 = 0 := by decide
  have hl0 : jsOrInt (parseIntJS (some "0")) 500 = 500 := by decide
  refine ⟨hl0, hp0, ?_, ?_, ?_⟩
  · simp [batchEndpoint, batchLoop, maxRetries, hok, batchQuery, hp0, hl0]
  · rw [List.length_take]
    exact min_le_left _ _
  · intro hne
    have hlen : (sortById store).length = store.length := (sortById_perm store).length_eq
    have hpos : 0 < store.length := List.length_pos.mpr hne
    rw [← List.length_pos, List.length_map, List.length_take, hlen]
    omega

/-- Concrete instance of `batch_limit_zero_defaults_to_500`: on a singleton
store, `page=0&limit=0` answers with `limit = 500` and the one record. -/
theorem batch_limit_zero_defaults_to_500_witness :
    (batchEndpoint [⟨4, none, none, none⟩] 1 (some "0") (some "0")
        (fun _ => none)).result =
      BatchResult.ok [toGeoJSON ⟨4, none, none, none⟩] 0 500 false 1 := by
  have h := batch_limit_zero_defaults_to_500 [⟨4, none, none, none⟩]
    (fun _ => none) rfl
  rw [h.2.2.1]
  decide

end MapApp
